import Mathlib

/-!
Verification of `static/app.js` of AI4AgroFuture: a click handler that
POSTs to `/api/refresh_sinais`, inspects the JSON response for a numeric
field `qtd`, optionally alerts, reloads the page, and restores the button
state in a `finally` block.

The handler is embedded shallowly: a click produces an ordered trace of
observable events (DOM mutations, the fetch request, alerts, console
logging, reload), parameterised by the outcome of the network call.
-/

namespace App

/-- A JSON value, as produced by `resp.json()` / `JSON.parse`. -/
inductive Json where
  | null
  | bool (b : Bool)
  | num (n : Int)
  | str (s : String)
  | arr (elems : List Json)
  | obj (fields : List (String × Json))
deriving Repr

/-- The DOM button: the two attributes the script touches. -/
structure Button where
  disabled : Bool
  textContent : String
deriving Repr, DecidableEq

/-- The HTTP request issued by `fetch(url, { method: "POST" })`:
no body and no headers are specified in the init object. -/
structure Request where
  url : String
  method : String
  body : Option String
  headers : List (String × String)
deriving Repr, DecidableEq

/-- Result of `await resp.json()`: either a parsed value or a rejected
promise (`SyntaxError` on a non-JSON body). -/
inductive BodyParse where
  | ok (data : Json)
  | parseError
deriving Repr

/-- Outcome of `await fetch(...)`: the promise either rejects (transport
error) or resolves to a response carrying an HTTP status and a body. -/
inductive FetchOutcome where
  | reject
  | resolve (status : Nat) (body : BodyParse)
deriving Repr

/-- One observable event of a click-handler run. -/
inductive Event where
  | setDisabled (b : Bool)
  | setText (s : String)
  | fetchReq (r : Request)
  | alertMsg (msg : String)
  | logError
  | reload
deriving Repr, DecidableEq

/-- `btn.textContent = "Atualizando..."`. -/
def inProgressLabel : String := "Atualizando..."

/-- The informational alert shown when `qtd === 0`. -/
def qtdZeroMsg : String :=
  "Não foi possível coletar novos sinais agora. Verifique sua internet ou tente novamente em alguns minutos."

/-- The generic failure alert shown in the `catch` block. -/
def failMsg : String := "Falha ao atualizar sinais."

/-- The request of `fetch("/api/refresh_sinais", { method: "POST" })`. -/
def refreshRequest : Request :=
  { url := "/api/refresh_sinais", method := "POST", body := none, headers := [] }

/-- JavaScript truthiness of a JSON value (the `data &&` test). -/
def truthy : Json → Bool
  | .null => false
  | .bool b => b
  | .num n => n != 0
  | .str s => s != ""
  | .arr _ => true
  | .obj _ => true

/-- Association lookup in an object's field list. -/
def lookupField : List (String × Json) → String → Option Json
  | [], _ => none
  | (k, v) :: rest, key => if k == key then some v else lookupField rest key

/-- JavaScript member access `data.qtd`. On `null` it throws a
`TypeError` (`.error`); on an object it yields the field or `undefined`
(`none`); on any other primitive or array it yields `undefined`. -/
def memberQtd : Json → Except Unit (Option Json)
  | .null => .error ()
  | .obj fields => .ok (lookupField fields "qtd")
  | _ => .ok none

/-- Evaluation of `data && typeof data.qtd === "number" && data.qtd === 0`,
with `&&` short-circuiting before the member access. -/
def qtdCond (data : Json) : Except Unit Bool :=
  if truthy data then
    match memberQtd data with
    | .error e => .error e
    | .ok (some (.num n)) => .ok (n == 0)
    | .ok _ => .ok false
  else
    .ok false

/-- The body of the `try` block after the fetch outcome is known, plus the
`catch` block: the events between the fetch and the `finally` block. -/
def tryCatchEvents : FetchOutcome → List Event
  | .reject => [.logError, .alertMsg failMsg]
  | .resolve _status .parseError => [.logError, .alertMsg failMsg]
  | .resolve _status (.ok data) =>
      match qtdCond data with
      | .error _ => [.logError, .alertMsg failMsg]
      | .ok true => [.alertMsg qtdZeroMsg, .reload]
      | .ok false => [.reload]

/-- The full click handler: capture `old = btn.textContent`, disable the
button and set the in-progress label, issue the fetch, run the
`try`/`catch` continuation, then the `finally` block restores the
pre-click state. -/
def clickHandler (pre : Button) (outcome : FetchOutcome) : List Event :=
  let old := pre.textContent
  [.setDisabled true, .setText inProgressLabel, .fetchReq refreshRequest]
    ++ tryCatchEvents outcome
    ++ [.setDisabled false, .setText old]

/-- Applying one event to the button state (non-DOM events are no-ops). -/
def applyEvent (b : Button) : Event → Button
  | .setDisabled d => { b with disabled := d }
  | .setText s => { b with textContent := s }
  | _ => b

/-- The button state after a trace of events. -/
def runEvents (b : Button) (es : List Event) : Button :=
  es.foldl applyEvent b

/-- Alert messages of a trace, in order. -/
def alertsOf (es : List Event) : List String :=
  es.filterMap fun e => match e with | .alertMsg m => some m | _ => none

/-- Number of page reloads in a trace. -/
def reloadsOf (es : List Event) : Nat :=
  (es.filter fun e => match e with | .reload => true | _ => false).length

/-- Number of `console.error` calls in a trace. -/
def logsOf (es : List Event) : Nat :=
  (es.filter fun e => match e with | .logError => true | _ => false).length

/-- The fetch requests issued in a trace, in order. -/
def fetchesOf (es : List Event) : List Request :=
  es.filterMap fun e => match e with | .fetchReq r => some r | _ => none

/-- A page: its elements, indexed by id. -/
structure Page where
  elements : List (String × Button)

/-- `document.getElementById`. -/
def getElementById (p : Page) (id : String) : Option Button :=
  lookupField' p.elements id
where
  lookupField' : List (String × Button) → String → Option Button
    | [], _ => none
    | (k, v) :: rest, key => if k == key then some v else lookupField' rest key

/-- Observable outcome of the `DOMContentLoaded` listener. -/
structure InitResult where
  clickListeners : Nat
  domMutations : Nat
  errored : Bool
deriving Repr, DecidableEq

/-- The `DOMContentLoaded` listener: look up `btn-refresh`; if absent,
return (`if (!btn) return;`); otherwise register the click listener.
Neither path mutates the DOM or throws. -/
def onDOMContentLoaded (p : Page) : InitResult :=
  match getElementById p "btn-refresh" with
  | none => { clickListeners := 0, domMutations := 0, errored := false }
  | some _ => { clickListeners := 1, domMutations := 0, errored := false }

/-- A concrete pre-click button used for witnesses. -/
def sampleButton : Button := { disabled := false, textContent := "Atualizar" }

/-- A page with no elements at all. -/
def emptyPage : Page := { elements := [] }

/-- A non-2xx response whose body is valid JSON `\x7b"qtd": 0\x7d`. -/
def status500QtdZero : FetchOutcome :=
  .resolve 500 (.ok (.obj [("qtd", .num 0)]))

/-! ## Helper lemmas -/

/-- Evaluating the `qtd` condition never throws: the `data &&` guard
short-circuits before the member access can hit `null`. -/
theorem qtdCond_no_throw (data : Json) : ∃ b, qtdCond data = Except.ok b := by
  cases data with
  | null => exact ⟨false, rfl⟩
  | bool b => cases b <;> exact ⟨false, rfl⟩
  | num n => exact ⟨false, by simp [qtdCond, memberQtd, ite_self]⟩
  | str s => exact ⟨false, by simp [qtdCond, memberQtd, ite_self]⟩
  | arr es => exact ⟨false, rfl⟩
  | obj fields =>
      rcases hl : lookupField fields "qtd" with _ | v
      · exact ⟨false, by simp [qtdCond, truthy, memberQtd, hl]⟩
      · cases v with
        | num n => exact ⟨n == 0, by simp [qtdCond, truthy, memberQtd, hl]⟩
        | null => exact ⟨false, by simp [qtdCond, truthy, memberQtd, hl]⟩
        | bool b => exact ⟨false, by simp [qtdCond, truthy, memberQtd, hl]⟩
        | str s => exact ⟨false, by simp [qtdCond, truthy, memberQtd, hl]⟩
        | arr es => exact ⟨false, by simp [qtdCond, truthy, memberQtd, hl]⟩
        | obj fs => exact ⟨false, by simp [qtdCond, truthy, memberQtd, hl]⟩

/-- If `data` is not an object whose `qtd` field is the number `0`, the
condition evaluates to `false` without throwing. -/
theorem qtdCond_false_of_ne_zero (data : Json)
    (h : ∀ fields, data = Json.obj fields →
      lookupField fields "qtd" ≠ some (Json.num 0)) :
    qtdCond data = Except.ok false := by
  cases data with
  | null => rfl
  | bool b => cases b <;> rfl
  | num n => simp [qtdCond, memberQtd, ite_self]
  | str s => simp [qtdCond, memberQtd, ite_self]
  | arr es => rfl
  | obj fields =>
      rcases hl : lookupField fields "qtd" with _ | v
      · simp [qtdCond, truthy, memberQtd, hl]
      · cases v with
        | num n =>
            have hne : n ≠ 0 := by
              intro hn0
              exact h fields rfl (by rw [hl, hn0])
            have hn : (n == 0) = false := beq_eq_false_iff_ne.mpr hne
            simp [qtdCond, truthy, memberQtd, hl, hn]
        | null => simp [qtdCond, truthy, memberQtd, hl]
        | bool b => simp [qtdCond, truthy, memberQtd, hl]
        | str s => simp [qtdCond, truthy, memberQtd, hl]
        | arr es => simp [qtdCond, truthy, memberQtd, hl]
        | obj fs => simp [qtdCond, truthy, memberQtd, hl]

/-- The events between fetch and `finally` take one of exactly three
shapes: failure, informational alert then reload, or bare reload. -/
theorem tryCatch_cases (o : FetchOutcome) :
    tryCatchEvents o = [.logError, .alertMsg failMsg] ∨
    tryCatchEvents o = [.alertMsg qtdZeroMsg, .reload] ∨
    tryCatchEvents o = [.reload] := by
  cases o with
  | reject => exact Or.inl rfl
  | resolve s body =>
      cases body with
      | parseError => exact Or.inl rfl
      | ok data =>
          rcases hq : qtdCond data with e | b
          · exact Or.inl (by simp [tryCatchEvents, hq])
          · cases b
            · exact Or.inr (Or.inr (by simp [tryCatchEvents, hq]))
            · exact Or.inr (Or.inl (by simp [tryCatchEvents, hq]))

/-- The last two events of any trace force the final button state. -/
theorem runEvents_restore (b : Button) (es : List Event) (t : String) :
    runEvents b (es ++ [.setDisabled false, .setText t]) =
      { disabled := false, textContent := t } := by
  simp [runEvents, List.foldl_append, applyEvent]

/-! ## Claims -/

/-- C1: for every click, once the async operation settles (success or
failure), the button is enabled again and its label equals the pre-click
label — the `finally` block restores both. -/
theorem click_restores_button (pre : Button) (outcome : FetchOutcome) :
    runEvents pre (clickHandler pre outcome) =
      { disabled := false, textContent := pre.textContent } :=
  runEvents_restore pre
    ([.setDisabled true, .setText inProgressLabel, .fetchReq refreshRequest]
      ++ tryCatchEvents outcome) pre.textContent

/-- C2: when the fetch rejects or the body fails to parse as JSON, the
generic failure alert fires exactly once, the error is logged, and no
reload happens in that invocation. -/
theorem failure_alert_once_no_reload (pre : Button) (outcome : FetchOutcome)
    (h : outcome = .reject ∨ ∃ s, outcome = .resolve s .parseError) :
    alertsOf (clickHandler pre outcome) = [failMsg] ∧
    logsOf (clickHandler pre outcome) = 1 ∧
    reloadsOf (clickHandler pre outcome) = 0 := by
  rcases h with rfl | ⟨s, rfl⟩ <;> exact ⟨rfl, rfl, rfl⟩

/-- C2 witness: a rejected fetch at a concrete button. -/
theorem failure_alert_once_no_reload_witness :
    alertsOf (clickHandler sampleButton .reject) = [failMsg] ∧
    logsOf (clickHandler sampleButton .reject) = 1 ∧
    reloadsOf (clickHandler sampleButton .reject) = 0 :=
  failure_alert_once_no_reload sampleButton .reject (Or.inl rfl)

/-- C3 counterexample: the claim says every click triggers exactly one
reload even when step 4 failed; on a rejected fetch the `catch` block
runs and the reload statement is skipped, so the count is 0, not 1. -/
theorem reload_not_unconditional :
    reloadsOf (clickHandler sampleButton FetchOutcome.reject) ≠ 1 := by
  decide

/-- C3 (amended): exactly one reload is triggered when the response was
awaited and parsed successfully, whether the `qtd` check passed or
failed; when the fetch rejects or parsing fails, no reload occurs. -/
theorem reload_exactly_once_on_success (pre : Button) (s : Nat)
    (data : Json) :
    reloadsOf (clickHandler pre (.resolve s (.ok data))) = 1 ∧
    reloadsOf (clickHandler pre .reject) = 0 ∧
    reloadsOf (clickHandler pre (.resolve s .parseError)) = 0 := by
  refine ⟨?_, rfl, rfl⟩
  obtain ⟨b, hb⟩ := qtdCond_no_throw data
  cases b <;> simp [clickHandler, tryCatchEvents, hb, reloadsOf]

/-- C4 counterexample: an HTTP 500 response whose body is the valid JSON
object with `qtd = 0` does NOT take the failure branch: the informational
alert (not the generic failure alert) fires and the reload still runs,
because the status code is never checked. -/
theorem non2xx_not_failure_branch :
    alertsOf (clickHandler sampleButton status500QtdZero) ≠ [failMsg] ∧
    reloadsOf (clickHandler sampleButton status500QtdZero) ≠ 0 := by
  constructor <;> decide

/-- C4 (amended): a response whose body fails to parse as JSON — whatever
its HTTP status, 2xx or not — produces the identical event trace to a
network failure: generic alert, log, and no success-path steps. -/
theorem parse_failure_same_as_network_failure (pre : Button) (s : Nat) :
    clickHandler pre (.resolve s .parseError) = clickHandler pre .reject :=
  rfl

/-- C5: a response parsing to an object whose `qtd` field is the number 0
yields the informational alert exactly once, and it precedes the reload:
the full trace is forced. -/
theorem qtd_zero_alert_before_reload (pre : Button) (s : Nat)
    (fields : List (String × Json))
    (h : lookupField fields "qtd" = some (Json.num 0)) :
    alertsOf (clickHandler pre (.resolve s (.ok (.obj fields)))) =
      [qtdZeroMsg] ∧
    clickHandler pre (.resolve s (.ok (.obj fields))) =
      [.setDisabled true, .setText inProgressLabel, .fetchReq refreshRequest,
       .alertMsg qtdZeroMsg, .reload, .setDisabled false,
       .setText pre.textContent] := by
  have ht : tryCatchEvents (.resolve s (.ok (.obj fields))) =
      [.alertMsg qtdZeroMsg, .reload] := by
    simp [tryCatchEvents, qtdCond, truthy, memberQtd, h]
  constructor
  · simp [clickHandler, ht, alertsOf]
  · simp [clickHandler, ht]

/-- C5 witness: status 200 with body `\x7b"qtd": 0\x7d`. -/
theorem qtd_zero_alert_before_reload_witness :
    alertsOf (clickHandler sampleButton
        (.resolve 200 (.ok (.obj [("qtd", Json.num 0)])))) = [qtdZeroMsg] ∧
    clickHandler sampleButton (.resolve 200 (.ok (.obj [("qtd", Json.num 0)]))) =
      [.setDisabled true, .setText inProgressLabel, .fetchReq refreshRequest,
       .alertMsg qtdZeroMsg, .reload, .setDisabled false,
       .setText sampleButton.textContent] :=
  qtd_zero_alert_before_reload sampleButton 200 [("qtd", Json.num 0)] rfl

/-- C6: when the body parses but `qtd` is non-zero, absent, or
non-numeric, no alert fires and the flow goes straight to the reload. -/
theorem no_alert_straight_to_reload (pre : Button) (s : Nat) (data : Json)
    (h : ∀ fields, data = Json.obj fields →
      lookupField fields "qtd" ≠ some (Json.num 0)) :
    clickHandler pre (.resolve s (.ok data)) =
      [.setDisabled true, .setText inProgressLabel, .fetchReq refreshRequest,
       .reload, .setDisabled false, .setText pre.textContent] := by
  have ht : tryCatchEvents (.resolve s (.ok data)) = [.reload] := by
    simp [tryCatchEvents, qtdCond_false_of_ne_zero data h]
  simp [clickHandler, ht]

/-- C6 witness: status 200 with body `\x7b"qtd": 5\x7d`. -/
theorem no_alert_straight_to_reload_witness :
    clickHandler sampleButton (.resolve 200 (.ok (.obj [("qtd", Json.num 5)]))) =
      [.setDisabled true, .setText inProgressLabel, .fetchReq refreshRequest,
       .reload, .setDisabled false, .setText sampleButton.textContent] :=
  no_alert_straight_to_reload sampleButton 200 (.obj [("qtd", Json.num 5)])
    (by
      intro fields hf
      injection hf with hfe
      subst hfe
      intro hc
      rw [show lookupField [("qtd", Json.num 5)] "qtd" = some (Json.num 5)
        from rfl] at hc
      simp at hc)

/-- C7: if no element with id `btn-refresh` exists at page-ready time,
initialization is a silent no-op: no error, no DOM mutation, no click
listener registered. -/
theorem init_noop_when_button_absent (p : Page)
    (h : getElementById p "btn-refresh" = none) :
    onDOMContentLoaded p =
      { clickListeners := 0, domMutations := 0, errored := false } := by
  simp [onDOMContentLoaded, h]

/-- C7 witness: the empty page. -/
theorem init_noop_when_button_absent_witness :
    onDOMContentLoaded emptyPage =
      { clickListeners := 0, domMutations := 0, errored := false } :=
  init_noop_when_button_absent emptyPage rfl

/-- C8: every click first disables the button and sets the in-progress
label (the old label having been captured), and only then issues exactly
one POST to `/api/refresh_sinais` with no body and no headers. -/
theorem prefetch_order_and_single_post (pre : Button)
    (outcome : FetchOutcome) :
    (clickHandler pre outcome).take 3 =
      [.setDisabled true, .setText inProgressLabel,
       .fetchReq refreshRequest] ∧
    fetchesOf (clickHandler pre outcome) = [refreshRequest] ∧
    refreshRequest.method = "POST" ∧
    refreshRequest.url = "/api/refresh_sinais" ∧
    refreshRequest.body = none ∧
    refreshRequest.headers = [] := by
  refine ⟨rfl, ?_, rfl, rfl, rfl, rfl⟩
  rcases tryCatch_cases outcome with h | h | h <;>
    simp [clickHandler, fetchesOf, h]

/-- C9: the HTTP status code is never read: two resolved responses with
the same body parse result produce the identical event trace, whatever
their status codes. -/
theorem status_code_never_read (pre : Button) (s1 s2 : Nat)
    (body : BodyParse) :
    clickHandler pre (.resolve s1 body) = clickHandler pre (.resolve s2 body) := by
  cases body <;> rfl

/-- C10: any parsed value that is not an object with a numeric `qtd`
field — null, array, string, number, boolean, or such an object — raises
no exception (the guarded condition evaluates to `ok false`), shows no
alert, and proceeds to the reload. -/
theorem guarded_qtd_access_safe (pre : Button) (s : Nat) (data : Json)
    (h : ∀ fields n, data = Json.obj fields →
      lookupField fields "qtd" ≠ some (Json.num n)) :
    qtdCond data = Except.ok false ∧
    alertsOf (clickHandler pre (.resolve s (.ok data))) = [] ∧
    reloadsOf (clickHandler pre (.resolve s (.ok data))) = 1 := by
  have hc : qtdCond data = Except.ok false :=
    qtdCond_false_of_ne_zero data (fun fields hf => h fields 0 hf)
  have ht : tryCatchEvents (.resolve s (.ok data)) = [.reload] := by
    simp [tryCatchEvents, hc]
  exact ⟨hc, by simp [clickHandler, ht, alertsOf],
    by simp [clickHandler, ht, reloadsOf]⟩

/-- C10 witness: the parsed value is an empty array. -/
theorem guarded_qtd_access_safe_witness :
    qtdCond (Json.arr []) = Except.ok false ∧
    alertsOf (clickHandler sampleButton (.resolve 200 (.ok (.arr [])))) = [] ∧
    reloadsOf (clickHandler sampleButton (.resolve 200 (.ok (.arr [])))) = 1 :=
  guarded_qtd_access_safe sampleButton 200 (.arr [])
    (by intro fields n hf; exact Json.noConfusion hf)

end App
